import Mathlib

/-!
Verification development for the Olist lakehouse synthetic-data generator
(src/src/utils/data_generator.py).  The generator is shallowly embedded:
Python dict records become Lean structures, the global `random` module
becomes explicit entropy arguments (every primitive draw receives its own
entropy value, universally quantified in the theorems), Python floats from
random.random() and random.uniform become rationals, and datetimes become
integer second counts.  Code that can raise (random.choice on an empty
sequence) is embedded in `Except String`, so "the call does not raise"
is the statement that the result is `Except.ok`.
-/

/-- The fixed Brazilian state/city vocabulary (dict BRAZILIAN_STATES in the
source, kept in its textual order as a list of pairs). -/
def BRAZILIAN_STATES : List (String × String) :=
  [("SP", "Sao Paulo"), ("RJ", "Rio De Janeiro"), ("MG", "Belo Horizonte"),
   ("RS", "Porto Alegre"), ("PR", "Curitiba"), ("SC", "Florianopolis"),
   ("BA", "Salvador"), ("PE", "Recife"), ("CE", "Fortaleza"),
   ("DF", "Brasilia"), ("GO", "Goiania"), ("PA", "Belem")]

/-- The fixed product-category vocabulary (PRODUCT_CATEGORIES in the source). -/
def PRODUCT_CATEGORIES : List String :=
  ["electronics", "computers", "home appliances", "furniture", "sports",
   "toys", "health beauty", "fashion bags", "watches gifts", "garden tools",
   "auto", "books", "music", "food drink", "pet shop"]

/-- ORDER_STATUSES from the source. -/
def ORDER_STATUSES : List String :=
  ["created", "approved", "invoiced", "processing", "shipped", "delivered", "canceled"]

/-- PAYMENT_TYPES from the source. -/
def PAYMENT_TYPES : List String :=
  ["credit_card", "boleto", "voucher", "debit_card"]

/-- BAD_DATA_RATE = 0.02 from the source, as a rational. -/
def BAD_DATA_RATE : ℚ := mkRat 2 100

/-- Emptiness of a list is decidable without decidable equality of elements;
this mirrors Python truthiness tests such as "if existing_records:". -/
instance (l : List α) : Decidable (l = []) :=
  match l with
  | [] => Decidable.isTrue rfl
  | _ :: _ => Decidable.isFalse (fun h => List.noConfusion h)

/-- random.choice(seq): raises IndexError on an empty sequence, otherwise
returns a uniformly chosen element.  The entropy argument `idx` selects the
element through reduction modulo the length. -/
def randChoice (l : List α) (idx : Nat) : Except String α :=
  match l with
  | [] => Except.error "IndexError: cannot choose from an empty sequence"
  | x :: xs =>
    Except.ok ((x :: xs).get ⟨idx % (x :: xs).length, Nat.mod_lt idx (Nat.succ_pos xs.length)⟩)

/-- Total version of random.choice for a list known to be non-empty. -/
def choice_of (l : List α) (idx : Nat) (h : l ≠ []) : α :=
  l.get ⟨idx % l.length, Nat.mod_lt idx (List.length_pos.mpr h)⟩

/-- random.randint(a, b) draws an integer uniformly from the inclusive range
[a, b]; the entropy argument is reduced modulo the size of the range. -/
def randint (a b : Nat) (e : Nat) : Nat := a + e % (b - a + 1)

/-- random.uniform(a, b) = a + (b - a) * random.random(); the random.random()
value is the rational entropy argument q (in [0,1) for genuine draws).
The source sometimes wraps this in round(x, 2); decimal rounding of floats
is immaterial to every claim and is not modelled. -/
def uniform_draw (a b q : ℚ) : ℚ := a + (b - a) * q

/-- The sixteen lowercase hexadecimal digit characters. -/
def HEX_DIGITS : List Char := "0123456789abcdef".data

/-- One hexadecimal digit character of a value below 16. -/
def hexChar (n : Nat) : Char := HEX_DIGITS.getD (n % 16) '0'

/-- Fixed-width big-endian hexadecimal rendering of a natural number. -/
def hexRender : Nat → Nat → List Char
  | 0, _ => []
  | w + 1, v => hexRender w (v / 16) ++ [hexChar (v % 16)]

/-- generate_uuid() in the source is uuid.uuid4().hex: 128 random bits
rendered as a 32-character lowercase hexadecimal string without hyphens.
The embedding renders the 128-bit entropy argument the same way. -/
def generate_uuid (e : Nat) : String := String.mk (hexRender 32 e)

/-- A string is a 32-character lowercase hexadecimal identifier. -/
def is32hex (s : String) : Prop :=
  s.length = 32 ∧ ∀ c ∈ s.data, c ∈ HEX_DIGITS

/-- Entropy for one call of random_brazilian_location: the state choice and
the zip-prefix randint draw. -/
structure LocDraw where
  stateIdx : Nat
  zipE : Nat
deriving Repr, DecidableEq

/-- random_brazilian_location() from the source: a uniformly chosen state
code, its city, and a uniform zip prefix from randint(10000, 99999). -/
def random_brazilian_location (d : LocDraw) : String × String × Nat :=
  let sc := choice_of BRAZILIAN_STATES d.stateIdx (by decide)
  (sc.1, sc.2, randint 10000 99999 d.zipE)

/-- Customer record (dict built by generate_customers / the CDC INSERT
branch).  Fields that bad-data injection can null out are Options. -/
structure Customer where
  customer_id : Option String
  customer_unique_id : String
  customer_zip_code_prefix : Option Nat
  customer_city : String
  customer_state : String
deriving Repr, DecidableEq

/-- Product record (dict built by generate_products / the CDC INSERT branch).
Weight and dimensions are integers because injection can make them negative. -/
structure Product where
  product_id : Option String
  product_category_name : String
  product_name_lenght : Nat
  product_description_lenght : Nat
  product_photos_qty : Nat
  product_weight_g : Int
  product_length_cm : Int
  product_height_cm : Int
  product_width_cm : Int
deriving Repr, DecidableEq

/-- Seller record (dict built by generate_sellers / the CDC INSERT branch). -/
structure Seller where
  seller_id : Option String
  seller_zip_code_prefix : Nat
  seller_city : String
  seller_state : String
deriving Repr, DecidableEq

/-- Order record (dict built by generate_orders).  Timestamps are integer
second counts; the nullable lifecycle timestamps are Options. -/
structure Order where
  order_id : Option String
  customer_id : String
  order_status : String
  order_purchase_timestamp : Option Int
  order_approved_at : Option Int
  order_delivered_carrier_date : Option Int
  order_delivered_customer_date : Option Int
  order_estimated_delivery_date : Int
deriving Repr, DecidableEq

/-- Order-item record (dict built by generate_orders). -/
structure OrderItem where
  order_id : String
  order_item_id : Nat
  product_id : String
  seller_id : String
  shipping_limit_date : Int
  price : ℚ
  freight_value : ℚ
deriving Repr, DecidableEq

/-- Order-payment record (dict built by generate_orders). -/
structure OrderPayment where
  order_id : String
  payment_sequential : Nat
  payment_type : String
  payment_installments : Nat
  payment_value : ℚ
deriving Repr, DecidableEq

/-- Order-review record (dict built by generate_orders). -/
structure OrderReview where
  review_id : String
  order_id : String
  review_score : Int
  review_comment_title : Option String
  review_comment_message : Option String
  review_creation_date : Int
  review_answer_timestamp : Int
deriving Repr, DecidableEq

/-- A record of any of the seven entity shapes handled by
introduce_bad_data (in the source these are all plain dicts). -/
inductive Rec where
  | customer : Customer → Rec
  | product : Product → Rec
  | seller : Seller → Rec
  | order : Order → Rec
  | orderItem : OrderItem → Rec
  | orderPayment : OrderPayment → Rec
  | orderReview : OrderReview → Rec
deriving Repr, DecidableEq

/-- The entity_type string that matches the shape of a record, as the
driver passes it alongside each record. -/
def kindOf : Rec → String
  | Rec.customer _ => "customer"
  | Rec.product _ => "product"
  | Rec.seller _ => "seller"
  | Rec.order _ => "order"
  | Rec.orderItem _ => "order_item"
  | Rec.orderPayment _ => "order_payment"
  | Rec.orderReview _ => "order_review"

/-- Entropy for one call of introduce_bad_data: the keep/corrupt roll from
random.random(), the violation choice, the dimension choice (products), a
natural randint entropy and a rational uniform entropy for the injected
values. -/
structure BadDraw where
  roll : ℚ
  violIdx : Nat
  dimIdx : Nat
  amtN : Nat
  amtQ : ℚ
deriving Repr

/-- introduce_bad_data from the source (lines 102-177).  With
random.random() >= bad_data_rate the record is returned unchanged;
otherwise the elif chain on entity_type picks one violation uniformly
(random.choice on a literal list, modelled as the choice entropy modulo
the list length) and applies exactly that one mutation.  An entity_type
matching none of the branches falls through to the final return.  The
source never raises, so the embedding is total; the wildcard rows cover
the (never exercised) case of a record whose shape does not match
entity_type, where the source would mutate keys of a foreign dict. -/
def introduce_bad_data (record : Rec) (entity_type : String) (d : BadDraw)
    (bad_data_rate : ℚ) : Rec :=
  if bad_data_rate ≤ d.roll then record
  else if entity_type = "customer" then
    match record with
    | Rec.customer c =>
      match d.violIdx % 3 with
      | 0 => Rec.customer { c with customer_id := none }
      | 1 => Rec.customer { c with customer_id := some "INVALID_SHORT" }
      | _ => Rec.customer { c with customer_zip_code_prefix := none }
    | r => r
  else if entity_type = "product" then
    match record with
    | Rec.product p =>
      match d.violIdx % 3 with
      | 0 => Rec.product { p with product_id := none }
      | 1 => Rec.product { p with product_weight_g := -((randint 1 1000 d.amtN : Nat) : Int) }
      | _ =>
        match d.dimIdx % 3 with
        | 0 => Rec.product { p with product_length_cm := -((randint 1 50 d.amtN : Nat) : Int) }
        | 1 => Rec.product { p with product_height_cm := -((randint 1 50 d.amtN : Nat) : Int) }
        | _ => Rec.product { p with product_width_cm := -((randint 1 50 d.amtN : Nat) : Int) }
    | r => r
  else if entity_type = "seller" then
    match record with
    | Rec.seller s =>
      match d.violIdx % 2 with
      | 0 => Rec.seller { s with seller_id := none }
      | _ => Rec.seller { s with seller_id := some "BAD_SELLER" }
    | r => r
  else if entity_type = "order" then
    match record with
    | Rec.order o =>
      match d.violIdx % 3 with
      | 0 => Rec.order { o with order_id := none }
      | 1 => Rec.order { o with order_status := "INVALID_STATUS_XYZ" }
      | _ => Rec.order { o with order_purchase_timestamp := none }
    | r => r
  else if entity_type = "order_item" then
    match record with
    | Rec.orderItem it =>
      match d.violIdx % 2 with
      | 0 => Rec.orderItem { it with price := -(uniform_draw 1 100 d.amtQ) }
      | _ => Rec.orderItem { it with freight_value := -(uniform_draw 1 50 d.amtQ) }
    | r => r
  else if entity_type = "order_payment" then
    match record with
    | Rec.orderPayment pay =>
      match d.violIdx % 2 with
      | 0 => Rec.orderPayment { pay with payment_type := "INVALID_PAYMENT_TYPE" }
      | _ => Rec.orderPayment { pay with payment_value := -(uniform_draw 1 100 d.amtQ) }
    | r => r
  else if entity_type = "order_review" then
    match record with
    | Rec.orderReview rv =>
      match d.violIdx % 2 with
      | 0 => Rec.orderReview { rv with review_score := 0 }
      | _ => Rec.orderReview { rv with review_score := ((randint 6 10 d.amtN : Nat) : Int) }
    | r => r
  else record

/-- The three mutable entity kinds handled by generate_cdc_batch, named by
the entity_type strings the driver passes. -/
inductive EntityType where
  | customers
  | products
  | sellers
deriving Repr, DecidableEq

/-- The record shape of each CDC entity kind. -/
def RecOf : EntityType → Type
  | EntityType.customers => Customer
  | EntityType.products => Product
  | EntityType.sellers => Seller

instance (et : EntityType) : DecidableEq (RecOf et) :=
  match et with
  | EntityType.customers => inferInstanceAs (DecidableEq Customer)
  | EntityType.products => inferInstanceAs (DecidableEq Product)
  | EntityType.sellers => inferInstanceAs (DecidableEq Seller)

instance (et : EntityType) : Repr (RecOf et) :=
  match et with
  | EntityType.customers => inferInstanceAs (Repr Customer)
  | EntityType.products => inferInstanceAs (Repr Product)
  | EntityType.sellers => inferInstanceAs (Repr Seller)

/-- One CDC change event: the three wrapper columns added by
generate_cdc_batch plus the entity payload merged into the row. -/
structure ChangeEvent (et : EntityType) where
  sequence_number : Nat
  operation : String
  change_timestamp : Int
  payload : RecOf et
deriving Repr, DecidableEq

/-- Entropy for one change index of generate_cdc_batch: the operation roll
from random.random(), the index entropy for random.choice(existing_records),
and entropy for every attribute draw the chosen branch may perform. -/
structure StepDraw where
  roll : ℚ
  pickIdx : Nat
  loc : LocDraw
  uuidE1 : Nat
  uuidE2 : Nat
  catIdx : Nat
  nameE : Nat
  descE : Nat
  photosE : Nat
  weightE : Nat
  lenE : Nat
  htE : Nat
  widE : Nat
deriving Repr

/-- The INSERT branch of generate_cdc_batch (lines 371-402): a brand-new
record synthesized with the same attribute rules as the initial load. -/
def fresh_insert_record : (et : EntityType) → StepDraw → RecOf et
  | EntityType.customers, d =>
    let loc := random_brazilian_location d.loc
    { customer_id := some (generate_uuid d.uuidE1),
      customer_unique_id := generate_uuid d.uuidE2,
      customer_zip_code_prefix := some loc.2.2,
      customer_city := loc.2.1,
      customer_state := loc.1 }
  | EntityType.products, d =>
    { product_id := some (generate_uuid d.uuidE1),
      product_category_name := choice_of PRODUCT_CATEGORIES d.catIdx (by decide),
      product_name_lenght := randint 10 100 d.nameE,
      product_description_lenght := randint 50 500 d.descE,
      product_photos_qty := randint 1 10 d.photosE,
      product_weight_g := ((randint 100 50000 d.weightE : Nat) : Int),
      product_length_cm := ((randint 5 100 d.lenE : Nat) : Int),
      product_height_cm := ((randint 5 100 d.htE : Nat) : Int),
      product_width_cm := ((randint 5 100 d.widE : Nat) : Int) }
  | EntityType.sellers, d =>
    let loc := random_brazilian_location d.loc
    { seller_id := some (generate_uuid d.uuidE1),
      seller_zip_code_prefix := loc.2.2,
      seller_city := loc.2.1,
      seller_state := loc.1 }

/-- The UPDATE mutation block of generate_cdc_batch (lines 413-425), applied
to the value copy of the chosen record.  For customers the source assigns
city, state and zip prefix; for products category and weight; for sellers
the source assigns only city and state (the zip prefix drawn alongside them
is discarded). -/
def apply_update_changes : (et : EntityType) → StepDraw → RecOf et → RecOf et
  | EntityType.customers, d, r =>
    let loc := random_brazilian_location d.loc
    { r with customer_city := loc.2.1, customer_state := loc.1,
             customer_zip_code_prefix := some loc.2.2 }
  | EntityType.products, d, r =>
    { r with product_category_name := choice_of PRODUCT_CATEGORIES d.catIdx (by decide),
             product_weight_g := ((randint 100 50000 d.weightE : Nat) : Int) }
  | EntityType.sellers, d, r =>
    let loc := random_brazilian_location d.loc
    { r with seller_city := loc.2.1, seller_state := loc.1 }

/-- The body of generate_cdc_batch for one change index i (lines 361-434):
decide the operation from the roll (UPDATE below 0.6 when the population is
non-empty, INSERT below 0.9, DELETE otherwise when the population is
non-empty, or skip), build the change record, and return the possibly
emitted event together with the population after the step.  random.choice
is the Except-valued randChoice, so any IndexError the source could raise
would surface as Except.error. -/
def cdcStep (et : EntityType) (pop : List (RecOf et)) (base_sequence : Nat)
    (base_time : Int) (i : Nat) (d : StepDraw) :
    Except String (Option (ChangeEvent et) × List (RecOf et)) :=
  if d.roll < mkRat 3 5 ∧ ¬ pop = [] then
    match randChoice pop d.pickIdx with
    | Except.error msg => Except.error msg
    | Except.ok record =>
      Except.ok (some { sequence_number := base_sequence + i, operation := "UPDATE",
                        change_timestamp := base_time + (i : Int),
                        payload := apply_update_changes et d record }, pop)
  else if d.roll < mkRat 9 10 then
    let record := fresh_insert_record et d
    Except.ok (some { sequence_number := base_sequence + i, operation := "INSERT",
                      change_timestamp := base_time + (i : Int),
                      payload := record }, pop ++ [record])
  else
    if ¬ pop = [] then
      match randChoice pop d.pickIdx with
      | Except.error msg => Except.error msg
      | Except.ok record =>
        Except.ok (some { sequence_number := base_sequence + i, operation := "DELETE",
                          change_timestamp := base_time + (i : Int),
                          payload := record }, pop)
    else
      Except.ok (none, pop)

/-- The for-loop of generate_cdc_batch: change indices i, i+1, ... for the
remaining count, threading the population and collecting emitted events. -/
def cdcLoop (et : EntityType) (base_sequence : Nat) (base_time : Int)
    (rand : Nat → StepDraw) :
    Nat → Nat → List (RecOf et) →
    Except String (List (ChangeEvent et) × List (RecOf et))
  | _, 0, pop => Except.ok ([], pop)
  | i, n + 1, pop =>
    match cdcStep et pop base_sequence base_time i (rand i) with
    | Except.error msg => Except.error msg
    | Except.ok (evOpt, pop1) =>
      match cdcLoop et base_sequence base_time rand (i + 1) n pop1 with
      | Except.error msg => Except.error msg
      | Except.ok (evs, popF) =>
        Except.ok ((match evOpt with | some ev => ev :: evs | none => evs), popF)

/-- generate_cdc_batch from the source (lines 347-436).  base_sequence is
batch_num * 10000 and base_time is the wall-clock anchor plus batch_num
hours; the now argument is the datetime.now() reading in seconds.  The
result pairs the emitted events with the population after the call (the
source mutates existing_records in place by appending INSERTed records). -/
def generate_cdc_batch (et : EntityType) (existing_records : List (RecOf et))
    (batch_num changes_count : Nat) (now : Int) (rand : Nat → StepDraw) :
    Except String (List (ChangeEvent et) × List (RecOf et)) :=
  cdcLoop et (batch_num * 10000) (now + 3600 * (batch_num : Int)) rand 0
    changes_count existing_records

/-- datetime(2017, 1, 1) as a Unix second count (start_date in
generate_orders). -/
def START_DATE : Int := 1483228800

/-- datetime(2018, 12, 31) as a Unix second count (end_date in
generate_orders). -/
def END_DATE : Int := 1546214400

/-- random_timestamp(start_date, end_date) from the source: the start plus
randint(0, delta.days) days plus randint(0, 86400) seconds. -/
def random_timestamp (start_date end_date : Int) (dayE secE : Nat) : Int :=
  let deltaDays := ((end_date - start_date) / 86400).toNat
  start_date + 86400 * ((randint 0 deltaDays dayE : Nat) : Int)
    + ((randint 0 86400 secE : Nat) : Int)

/-- Entropy for one order of generate_orders: order id, customer choice,
purchase-timestamp draws, status choice, the four lifecycle offset draws,
and the bad-data injection draw.  The item/payment/review fan-out of the
source consumes further entropy but never feeds back into the order record,
so its draws are not modelled. -/
structure OrderDraw where
  oidE : Nat
  custIdx : Nat
  dayE : Nat
  secE : Nat
  statusIdx : Nat
  appE : Nat
  carE : Nat
  cusE : Nat
  estE : Nat
  bad : BadDraw
deriving Repr

/-- The order dict built at lines 276-285 of the source: lifecycle
timestamps are present exactly when order_status is consistent with the
stage (approval for status other than created; carrier date for shipped or
delivered; customer delivery date for delivered). -/
def make_order (order_id customer_id status : String) (purchase_time : Int)
    (appE carE cusE estE : Nat) : Order :=
  { order_id := some order_id,
    customer_id := customer_id,
    order_status := status,
    order_purchase_timestamp := some purchase_time,
    order_approved_at :=
      if status ≠ "created"
      then some (purchase_time + 3600 * ((randint 1 24 appE : Nat) : Int)) else none,
    order_delivered_carrier_date :=
      if status = "shipped" ∨ status = "delivered"
      then some (purchase_time + 86400 * ((randint 1 5 carE : Nat) : Int)) else none,
    order_delivered_customer_date :=
      if status = "delivered"
      then some (purchase_time + 86400 * ((randint 5 30 cusE : Nat) : Int)) else none,
    order_estimated_delivery_date :=
      purchase_time + 86400 * ((randint 7 45 estE : Nat) : Int) }

/-- Unwraps the order shape of a Rec; introduce_bad_data provably preserves
the shape, so the default is never used. -/
def as_order (r : Rec) (dflt : Order) : Order :=
  match r with
  | Rec.order o => o
  | _ => dflt

/-- The per-order part of the generate_orders loop (lines 269-288): draw the
order id, customer, purchase time and status, build the order record, and
optionally run it through introduce_bad_data with the default rate.  The
dependent item/payment/review rows do not alter the order record and are
not modelled. -/
def ordersLoop (customer_ids : List String) (apply_bad_data : Bool)
    (draws : Nat → OrderDraw) : Nat → Nat → Except String (List Order)
  | _, 0 => Except.ok []
  | j, n + 1 =>
    let d := draws j
    let order_id := generate_uuid d.oidE
    match randChoice customer_ids d.custIdx with
    | Except.error msg => Except.error msg
    | Except.ok customer_id =>
      match randChoice ORDER_STATUSES d.statusIdx with
      | Except.error msg => Except.error msg
      | Except.ok status =>
        let purchase_time := random_timestamp START_DATE END_DATE d.dayE d.secE
        let order := make_order order_id customer_id status purchase_time
          d.appE d.carE d.cusE d.estE
        let order :=
          if apply_bad_data
          then as_order (introduce_bad_data (Rec.order order) "order" d.bad BAD_DATA_RATE) order
          else order
        match ordersLoop customer_ids apply_bad_data draws (j + 1) n with
        | Except.error msg => Except.error msg
        | Except.ok rest => Except.ok (order :: rest)

/-- generate_orders from the source, restricted to the orders output (the
first component of its four return lists). -/
def generate_orders (count : Nat) (customer_ids : List String)
    (apply_bad_data : Bool) (draws : Nat → OrderDraw) :
    Except String (List Order) :=
  ordersLoop customer_ids apply_bad_data draws 0 count

/-- Well-formedness of a freshly generated CDC INSERT payload: identifiers
are 32-character lowercase hexadecimal strings, customer and seller zip
prefixes lie in [10000, 99999], and the product category belongs to the
fixed category list. -/
def insert_wellformed : (et : EntityType) → RecOf et → Prop
  | EntityType.customers, c =>
    (∃ s, Customer.customer_id c = some s ∧ is32hex s) ∧
    is32hex ( Customer.customer_unique_id c) ∧
    (∃ z, Customer.customer_zip_code_prefix c = some z ∧ 10000 ≤ z ∧ z ≤ 99999)
  | EntityType.products, p =>
    (∃ s, Product.product_id p = some s ∧ is32hex s) ∧
    Product.product_category_name p ∈ PRODUCT_CATEGORIES
  | EntityType.sellers, s =>
    (∃ t, Seller.seller_id s = some t ∧ is32hex t) ∧
    10000 ≤ Seller.seller_zip_code_prefix s ∧ Seller.seller_zip_code_prefix s ≤ 99999

/-- What one pass of introduce_bad_data may do to a record it corrupts:
exactly one violation kind, mutating exactly one targeted field and leaving
every other field of the record as it was. -/
def OneViolation : Rec → Rec → Prop
  | Rec.customer c, out =>
    out = Rec.customer { c with customer_id := none } ∨
    out = Rec.customer { c with customer_id := some "INVALID_SHORT" } ∨
    out = Rec.customer { c with customer_zip_code_prefix := none }
  | Rec.product p, out =>
    out = Rec.product { p with product_id := none } ∨
    (∃ w : Int, w < 0 ∧ out = Rec.product { p with product_weight_g := w }) ∨
    (∃ v : Int, v < 0 ∧
      (out = Rec.product { p with product_length_cm := v } ∨
       out = Rec.product { p with product_height_cm := v } ∨
       out = Rec.product { p with product_width_cm := v }))
  | Rec.seller s, out =>
    out = Rec.seller { s with seller_id := none } ∨
    out = Rec.seller { s with seller_id := some "BAD_SELLER" }
  | Rec.order o, out =>
    out = Rec.order { o with order_id := none } ∨
    out = Rec.order { o with order_status := "INVALID_STATUS_XYZ" } ∨
    out = Rec.order { o with order_purchase_timestamp := none }
  | Rec.orderItem it, out =>
    (∃ v : ℚ, out = Rec.orderItem { it with price := v }) ∨
    (∃ v : ℚ, out = Rec.orderItem { it with freight_value := v })
  | Rec.orderPayment pay, out =>
    out = Rec.orderPayment { pay with payment_type := "INVALID_PAYMENT_TYPE" } ∨
    (∃ v : ℚ, out = Rec.orderPayment { pay with payment_value := v })
  | Rec.orderReview rv, out =>
    out = Rec.orderReview { rv with review_score := 0 } ∨
    (∃ v : Int, 6 ≤ v ∧ v ≤ 10 ∧ out = Rec.orderReview { rv with review_score := v })

deriving instance DecidableEq for Except

/-- Position and provenance facts for one event emitted by the CDC loop
running over change indices [lo, hi) with final population popF: the event
sits at some index j of that window, its sequence number is the batch base
plus j, its timestamp is the batch base time plus j seconds, an UPDATE
payload is the update mutation of some record of the final population, and
an INSERT payload is a freshly synthesized record. -/
def EvWithin (et : EntityType) (bs : Nat) (bt : Int) (lo hi : Nat)
    (popF : List (RecOf et)) (e : ChangeEvent et) : Prop :=
  ∃ j, lo ≤ j ∧ j < hi ∧
    ChangeEvent.sequence_number e = bs + j ∧
    ChangeEvent.change_timestamp e = bt + (j : Int) ∧
    ( ChangeEvent.operation e = "UPDATE" →
        ∃ r, r ∈ popF ∧ ∃ d : StepDraw,
          ChangeEvent.payload e = apply_update_changes et d r) ∧
    ( ChangeEvent.operation e = "INSERT" →
        ∃ d : StepDraw, ChangeEvent.payload e = fresh_insert_record et d)

/-- A concrete customer record used to instantiate theorems. -/
def smp_customer : Customer :=
  { customer_id := some "c", customer_unique_id := "u",
    customer_zip_code_prefix := some 11111, customer_city := "Belem",
    customer_state := "PA" }

/-- A concrete seller record used to instantiate theorems; its zip prefix
11111 differs from every zip prefix the location draws below produce. -/
def smp_seller : Seller :=
  { seller_id := some "s", seller_zip_code_prefix := 11111,
    seller_city := "Belem", seller_state := "PA" }

/-- A concrete step draw with the given operation roll; the location draw
picks state index 0 (SP / Sao Paulo) and zip entropy 12222, so the drawn
zip prefix is 22222. -/
def smp_step (r : ℚ) : StepDraw :=
  { roll := r, pickIdx := 0, loc := { stateIdx := 0, zipE := 12222 },
    uuidE1 := 0, uuidE2 := 1, catIdx := 0, nameE := 0, descE := 0,
    photosE := 0, weightE := 0, lenE := 0, htE := 0, widE := 0 }

/-- A concrete bad-data draw with the given keep/corrupt roll and violation
choice entropy. -/
def smp_bad (r : ℚ) (v : Nat) : BadDraw :=
  { roll := r, violIdx := v, dimIdx := 0, amtN := 0, amtQ := 0 }

/-- A concrete order draw with the given status choice and bad-data draw;
every other entropy is zero. -/
def smp_order_draw (statusIdx : Nat) (b : BadDraw) : OrderDraw :=
  { oidE := 0, custIdx := 0, dayE := 0, secE := 0, statusIdx := statusIdx,
    appE := 0, carE := 0, cusE := 0, estE := 0, bad := b }

theorem hexChar_mem (n : Nat) : hexChar n ∈ HEX_DIGITS := by
  have h : n % 16 < HEX_DIGITS.length := Nat.mod_lt _ (by decide)
  unfold hexChar
  rw [List.getD_eq_getElem _ _ h]
  exact List.getElem_mem _

theorem hexRender_length (w v : Nat) : (hexRender w v).length = w := by
  induction w generalizing v with
  | zero => rfl
  | succ w ih => simp [hexRender, ih]

theorem hexRender_mem (w v : Nat) : ∀ c ∈ hexRender w v, c ∈ HEX_DIGITS := by
  induction w generalizing v with
  | zero => intro c hc; simp [hexRender] at hc
  | succ w ih =>
    intro c hc
    simp only [hexRender, List.mem_append, List.mem_singleton] at hc
    rcases hc with hc | hc
    · exact ih _ _ hc
    · subst hc; exact hexChar_mem _

theorem generate_uuid_is32hex (e : Nat) : is32hex (generate_uuid e) := by
  refine ⟨?_, ?_⟩
  · show (String.mk (hexRender 32 e)).length = 32
    simpa [String.length] using hexRender_length 32 e
  · intro c hc
    exact hexRender_mem 32 e c hc

theorem le_randint (a b e : Nat) : a ≤ randint a b e := Nat.le_add_right a _

theorem randint_le (a b e : Nat) (h : a ≤ b) : randint a b e ≤ b := by
  unfold randint
  have := @Nat.mod_lt e (b - a + 1) (Nat.succ_pos _)
  omega

theorem randChoice_ok (l : List α) (idx : Nat) (h : l ≠ []) :
    randChoice l idx = Except.ok (choice_of l idx h) := by
  cases l with
  | nil => exact absurd rfl h
  | cons x xs => rfl

theorem choice_of_mem (l : List α) (idx : Nat) (h : l ≠ []) :
    choice_of l idx h ∈ l := List.get_mem _ _ _

theorem insert_wellformed_fresh (et : EntityType) (d : StepDraw) :
    insert_wellformed et (fresh_insert_record et d) := by
  cases et with
  | customers =>
    refine ⟨⟨_, rfl, generate_uuid_is32hex _⟩, generate_uuid_is32hex _, ⟨_, rfl, ?_, ?_⟩⟩
    · exact le_randint _ _ _
    · exact randint_le _ _ _ (by omega)
  | products =>
    exact ⟨⟨_, rfl, generate_uuid_is32hex _⟩, choice_of_mem _ _ (by decide)⟩
  | sellers =>
    refine ⟨⟨_, rfl, generate_uuid_is32hex _⟩, le_randint _ _ _, randint_le _ _ _ (by omega)⟩

theorem cdcStep_cases (et : EntityType) (pop : List (RecOf et)) (bs : Nat)
    (bt : Int) (i : Nat) (d : StepDraw) :
    (∃ h : pop ≠ [],
      d.roll < mkRat 3 5 ∧
      cdcStep et pop bs bt i d = Except.ok (some
        { sequence_number := bs + i, operation := "UPDATE",
          change_timestamp := bt + (i : Int),
          payload := apply_update_changes et d (choice_of pop d.pickIdx h) }, pop)) ∨
    (¬ (d.roll < mkRat 3 5 ∧ ¬ pop = []) ∧ d.roll < mkRat 9 10 ∧
      cdcStep et pop bs bt i d = Except.ok (some
        { sequence_number := bs + i, operation := "INSERT",
          change_timestamp := bt + (i : Int),
          payload := fresh_insert_record et d }, pop ++ [fresh_insert_record et d])) ∨
    (∃ h : pop ≠ [],
      ¬ d.roll < mkRat 9 10 ∧
      cdcStep et pop bs bt i d = Except.ok (some
        { sequence_number := bs + i, operation := "DELETE",
          change_timestamp := bt + (i : Int),
          payload := choice_of pop d.pickIdx h }, pop)) ∨
    (pop = [] ∧ ¬ d.roll < mkRat 9 10 ∧
      cdcStep et pop bs bt i d = Except.ok (none, pop)) := by
  by_cases h1 : d.roll < mkRat 3 5 ∧ ¬ pop = []
  · left
    refine ⟨h1.2, h1.1, ?_⟩
    unfold cdcStep
    rw [if_pos h1, randChoice_ok pop d.pickIdx h1.2]
  · by_cases h2 : d.roll < mkRat 9 10
    · right; left
      refine ⟨h1, h2, ?_⟩
      unfold cdcStep
      rw [if_neg h1, if_pos h2]
    · by_cases h3 : pop = []
      · right; right; right
        refine ⟨h3, h2, ?_⟩
        unfold cdcStep
        rw [if_neg h1, if_neg h2, if_neg (not_not_intro h3)]
      · right; right; left
        refine ⟨h3, h2, ?_⟩
        unfold cdcStep
        rw [if_neg h1, if_neg h2, if_pos h3, randChoice_ok pop d.pickIdx h3]

theorem cdcLoop_succ_ok (et : EntityType) (bs : Nat) (bt : Int)
    (rand : Nat → StepDraw) (i n : Nat) (pop pop1 : List (RecOf et))
    (evOpt : Option (ChangeEvent et)) (evs : List (ChangeEvent et))
    (popF : List (RecOf et))
    (hstep : cdcStep et pop bs bt i (rand i) = Except.ok (evOpt, pop1))
    (hrec : cdcLoop et bs bt rand (i + 1) n pop1 = Except.ok (evs, popF)) :
    cdcLoop et bs bt rand i (n + 1) pop =
      Except.ok ((match evOpt with | some ev => ev :: evs | none => evs), popF) := by
  cases evOpt with
  | some ev => simp [cdcLoop, hstep, hrec]
  | none => simp [cdcLoop, hstep, hrec]

theorem cdcLoop_ok (et : EntityType) (bs : Nat) (bt : Int)
    (rand : Nat → StepDraw) :
    ∀ (n i : Nat) (pop : List (RecOf et)),
    ∃ evs popF, cdcLoop et bs bt rand i n pop = Except.ok (evs, popF) := by
  intro n
  induction n with
  | zero => intro i pop; exact ⟨[], pop, rfl⟩
  | succ n ih =>
    intro i pop
    rcases cdcStep_cases et pop bs bt i (rand i) with
      ⟨hne, hr, heq⟩ | ⟨hg, hr, heq⟩ | ⟨hne, hr, heq⟩ | ⟨hemp, hr, heq⟩
    · obtain ⟨evs, popF, hrec⟩ := ih (i + 1) pop
      exact ⟨_, popF, cdcLoop_succ_ok et bs bt rand i n pop pop _ evs popF heq hrec⟩
    · obtain ⟨evs, popF, hrec⟩ := ih (i + 1) (pop ++ [fresh_insert_record et (rand i)])
      exact ⟨_, popF, cdcLoop_succ_ok et bs bt rand i n pop _ _ evs popF heq hrec⟩
    · obtain ⟨evs, popF, hrec⟩ := ih (i + 1) pop
      exact ⟨_, popF, cdcLoop_succ_ok et bs bt rand i n pop pop _ evs popF heq hrec⟩
    · obtain ⟨evs, popF, hrec⟩ := ih (i + 1) pop
      exact ⟨evs, popF, cdcLoop_succ_ok et bs bt rand i n pop pop none evs popF heq hrec⟩

theorem cdcLoop_spec (et : EntityType) (bs : Nat) (bt : Int)
    (rand : Nat → StepDraw) :
    ∀ (n i : Nat) (pop : List (RecOf et)) (evsOut : List (ChangeEvent et))
      (popF : List (RecOf et)),
    cdcLoop et bs bt rand i n pop = Except.ok (evsOut, popF) →
    (∀ e ∈ evsOut, EvWithin et bs bt i (i + n) popF e) ∧
    List.Pairwise
      (fun a b => ChangeEvent.sequence_number a < ChangeEvent.sequence_number b) evsOut ∧
    popF = pop ++ List.map (fun e => ChangeEvent.payload e)
      (List.filter (fun e => ChangeEvent.operation e == "INSERT") evsOut) ∧
    evsOut.length ≤ n ∧
    (pop ≠ [] → evsOut.length = n) := by
  intro n
  induction n with
  | zero =>
    intro i pop evsOut popF h
    simp only [cdcLoop, Except.ok.injEq, Prod.mk.injEq] at h
    obtain ⟨h1, h2⟩ := h
    subst h1
    subst h2
    exact ⟨by simp, by simp, by simp, by simp, fun _ => rfl⟩
  | succ n ih =>
    intro i pop evsOut popF h
    rcases cdcStep_cases et pop bs bt i (rand i) with
      ⟨hne, hr, heq⟩ | ⟨hg, hr, heq⟩ | ⟨hne, hr, heq⟩ | ⟨hemp, hr, heq⟩
    · -- UPDATE step
      obtain ⟨evs1, popF1, hrec⟩ := cdcLoop_ok et bs bt rand n (i + 1) pop
      have h2 := cdcLoop_succ_ok et bs bt rand i n pop pop _ evs1 popF1 heq hrec
      rw [h2] at h
      simp only [Except.ok.injEq, Prod.mk.injEq] at h
      obtain ⟨hevs, hpf⟩ := h
      subst hpf
      subst hevs
      obtain ⟨ihEv, ihPW, ihPop, ihLen, ihNE⟩ := ih (i + 1) pop evs1 _ hrec
      refine ⟨?_, ?_, ?_, ?_, ?_⟩
      · intro e he
        rcases List.mem_cons.mp he with rfl | he
        · refine ⟨i, le_refl i, by omega, rfl, rfl, ?_, ?_⟩
          · intro _
            refine ⟨choice_of pop (rand i).pickIdx hne, ?_, rand i, rfl⟩
            rw [ihPop]
            exact List.mem_append_left _ (choice_of_mem _ _ hne)
          · intro habs
            have habs2 : ("UPDATE" : String) = "INSERT" := habs
            exact absurd habs2 (by decide)
        · obtain ⟨j, hj1, hj2, rest⟩ := ihEv e he
          exact ⟨j, by omega, by omega, rest⟩
      · refine List.pairwise_cons.mpr ⟨?_, ihPW⟩
        intro b hb
        obtain ⟨j, hj1, hj2, hseq, _⟩ := ihEv b hb
        show bs + i < ChangeEvent.sequence_number b
        rw [hseq]
        omega
      · have hni : ¬ ("UPDATE" : String) = "INSERT" := by decide
        rw [ihPop]
        simp [List.filter_cons, hni]
      · simp only [List.length_cons]
        omega
      · intro hpop
        simp only [List.length_cons, ihNE hpop]
    · -- INSERT step
      obtain ⟨evs1, popF1, hrec⟩ :=
        cdcLoop_ok et bs bt rand n (i + 1) (pop ++ [fresh_insert_record et (rand i)])
      have h2 := cdcLoop_succ_ok et bs bt rand i n pop _ _ evs1 popF1 heq hrec
      rw [h2] at h
      simp only [Except.ok.injEq, Prod.mk.injEq] at h
      obtain ⟨hevs, hpf⟩ := h
      subst hpf
      subst hevs
      obtain ⟨ihEv, ihPW, ihPop, ihLen, ihNE⟩ := ih (i + 1) _ evs1 _ hrec
      refine ⟨?_, ?_, ?_, ?_, ?_⟩
      · intro e he
        rcases List.mem_cons.mp he with rfl | he
        · refine ⟨i, le_refl i, by omega, rfl, rfl, ?_, ?_⟩
          · intro habs
            have habs2 : ("INSERT" : String) = "UPDATE" := habs
            exact absurd habs2 (by decide)
          · intro _
            exact ⟨rand i, rfl⟩
        · obtain ⟨j, hj1, hj2, rest⟩ := ihEv e he
          exact ⟨j, by omega, by omega, rest⟩
      · refine List.pairwise_cons.mpr ⟨?_, ihPW⟩
        intro b hb
        obtain ⟨j, hj1, hj2, hseq, _⟩ := ihEv b hb
        show bs + i < ChangeEvent.sequence_number b
        rw [hseq]
        omega
      · rw [ihPop, List.filter_cons, List.append_assoc]
        simp [List.filter_cons]
      · simp only [List.length_cons]
        omega
      · intro _
        have hlen := ihNE (by simp)
        simp only [List.length_cons, hlen]
    · -- DELETE step
      obtain ⟨evs1, popF1, hrec⟩ := cdcLoop_ok et bs bt rand n (i + 1) pop
      have h2 := cdcLoop_succ_ok et bs bt rand i n pop pop _ evs1 popF1 heq hrec
      rw [h2] at h
      simp only [Except.ok.injEq, Prod.mk.injEq] at h
      obtain ⟨hevs, hpf⟩ := h
      subst hpf
      subst hevs
      obtain ⟨ihEv, ihPW, ihPop, ihLen, ihNE⟩ := ih (i + 1) pop evs1 _ hrec
      refine ⟨?_, ?_, ?_, ?_, ?_⟩
      · intro e he
        rcases List.mem_cons.mp he with rfl | he
        · refine ⟨i, le_refl i, by omega, rfl, rfl, ?_, ?_⟩
          · intro habs
            have habs2 : ("DELETE" : String) = "UPDATE" := habs
            exact absurd habs2 (by decide)
          · intro habs
            have habs2 : ("DELETE" : String) = "INSERT" := habs
            exact absurd habs2 (by decide)
        · obtain ⟨j, hj1, hj2, rest⟩ := ihEv e he
          exact ⟨j, by omega, by omega, rest⟩
      · refine List.pairwise_cons.mpr ⟨?_, ihPW⟩
        intro b hb
        obtain ⟨j, hj1, hj2, hseq, _⟩ := ihEv b hb
        show bs + i < ChangeEvent.sequence_number b
        rw [hseq]
        omega
      · have hni : ¬ ("DELETE" : String) = "INSERT" := by decide
        rw [ihPop]
        simp [List.filter_cons, hni]
      · simp only [List.length_cons]
        omega
      · intro hpop
        simp only [List.length_cons, ihNE hpop]
    · -- skipped DELETE on empty population
      obtain ⟨evs1, popF1, hrec⟩ := cdcLoop_ok et bs bt rand n (i + 1) pop
      have h2 := cdcLoop_succ_ok et bs bt rand i n pop pop none evs1 popF1 heq hrec
      rw [h2] at h
      simp only [Except.ok.injEq, Prod.mk.injEq] at h
      obtain ⟨hevs, hpf⟩ := h
      subst hpf
      subst hevs
      obtain ⟨ihEv, ihPW, ihPop, ihLen, ihNE⟩ := ih (i + 1) pop evs1 _ hrec
      refine ⟨?_, ihPW, ihPop, by omega, ?_⟩
      · intro e he
        obtain ⟨j, hj1, hj2, rest⟩ := ihEv e he
        exact ⟨j, by omega, by omega, rest⟩
      · intro hpop
        exact absurd hemp hpop

/-- Claim C1: for every call generate_cdc_batch(existing_records,
entity_type, batch_num, changes_count) with changes_count at most 10000,
every emitted event has its sequence number in
[batch_num * 10000, batch_num * 10000 + 10000), sequence numbers strictly
increase in emission order with no duplicates, and for two batches
b1 < b2 of the same entity kind every sequence number of batch b1 is
smaller than every sequence number of batch b2. -/
theorem c1_sequence_partitioning :
    (∀ (et : EntityType) (pop : List (RecOf et)) (b c : Nat) (now : Int)
       (rand : Nat → StepDraw) (evs : List (ChangeEvent et))
       (popF : List (RecOf et)),
       c ≤ 10000 →
       generate_cdc_batch et pop b c now rand = Except.ok (evs, popF) →
       (∀ e ∈ evs, b * 10000 ≤ ChangeEvent.sequence_number e ∧
          ChangeEvent.sequence_number e < b * 10000 + 10000) ∧
       List.Pairwise
         (fun a a2 => ChangeEvent.sequence_number a < ChangeEvent.sequence_number a2)
         evs) ∧
    (∀ (et : EntityType) (pop1 pop2 : List (RecOf et)) (b1 c1 b2 c2 : Nat)
       (now1 now2 : Int) (rand1 rand2 : Nat → StepDraw)
       (evs1 evs2 : List (ChangeEvent et)) (popF1 popF2 : List (RecOf et)),
       c1 ≤ 10000 → b1 < b2 →
       generate_cdc_batch et pop1 b1 c1 now1 rand1 = Except.ok (evs1, popF1) →
       generate_cdc_batch et pop2 b2 c2 now2 rand2 = Except.ok (evs2, popF2) →
       ∀ e1 ∈ evs1, ∀ e2 ∈ evs2,
         ChangeEvent.sequence_number e1 < ChangeEvent.sequence_number e2) := by
  constructor
  · intro et pop b c now rand evs popF hc hok
    obtain ⟨hEv, hPW, _, _, _⟩ := cdcLoop_spec et _ _ rand c 0 pop evs popF hok
    refine ⟨?_, hPW⟩
    intro e he
    obtain ⟨j, hj1, hj2, hseq, _⟩ := hEv e he
    constructor
    · rw [hseq]; omega
    · rw [hseq]; omega
  · intro et pop1 pop2 b1 c1 b2 c2 now1 now2 rand1 rand2 evs1 evs2 popF1 popF2
      hc1 hb hok1 hok2 e1 he1 e2 he2
    obtain ⟨hEv1, _, _, _, _⟩ := cdcLoop_spec et _ _ rand1 c1 0 pop1 evs1 popF1 hok1
    obtain ⟨hEv2, _, _, _, _⟩ := cdcLoop_spec et _ _ rand2 c2 0 pop2 evs2 popF2 hok2
    obtain ⟨j1, _, hj1u, hseq1, _⟩ := hEv1 e1 he1
    obtain ⟨j2, _, _, hseq2, _⟩ := hEv2 e2 he2
    rw [hseq1, hseq2]
    omega

theorem c1_sequence_partitioning_witness :
    ((0 : Nat) * 10000 ≤ 0 ∧ (0 : Nat) < 0 * 10000 + 10000) ∧ ((0 : Nat) < 10000) := by
  have hok1 : generate_cdc_batch EntityType.customers [smp_customer] 0 1 0
      (fun _ => smp_step 0) = Except.ok
      ([{ sequence_number := 0, operation := "UPDATE", change_timestamp := 0,
          payload := { customer_id := some "c", customer_unique_id := "u",
                       customer_zip_code_prefix := some 22222,
                       customer_city := "Sao Paulo", customer_state := "SP" } }],
        [smp_customer]) := by rfl
  have hok2 : generate_cdc_batch EntityType.customers [smp_customer] 1 1 0
      (fun _ => smp_step 0) = Except.ok
      ([{ sequence_number := 10000, operation := "UPDATE", change_timestamp := 3600,
          payload := { customer_id := some "c", customer_unique_id := "u",
                       customer_zip_code_prefix := some 22222,
                       customer_city := "Sao Paulo", customer_state := "SP" } }],
        [smp_customer]) := by rfl
  have h1 := (c1_sequence_partitioning.1 EntityType.customers [smp_customer] 0 1 0
      (fun _ => smp_step 0) _ _ (by omega) hok1).1 _ (List.mem_singleton.mpr rfl)
  have h2 := c1_sequence_partitioning.2 EntityType.customers [smp_customer]
      [smp_customer] 0 1 1 1 0 0 (fun _ => smp_step 0) (fun _ => smp_step 0)
      _ _ _ _ (by omega) (by omega) hok1 hok2 _ (List.mem_singleton.mpr rfl)
      _ (List.mem_singleton.mpr rfl)
  exact ⟨h1, h2⟩

/-- Claim C2: generate_cdc_batch never raises, in particular not against an
empty population: an UPDATE draw (roll below 0.6) on an empty population
falls through to the INSERT branch and emits an INSERT event, and a DELETE
draw (roll at least 0.9) on an empty population skips the change index
entirely, emitting no event and leaving the population unchanged, so the
sequence number of that index is never attached to any event (an
intentional gap). -/
theorem c2_empty_population_safe :
    (∀ (et : EntityType) (pop : List (RecOf et)) (b c : Nat) (now : Int)
       (rand : Nat → StepDraw),
       ∃ res, generate_cdc_batch et pop b c now rand = Except.ok res) ∧
    (∀ (et : EntityType) (bs : Nat) (bt : Int) (i : Nat) (d : StepDraw),
       d.roll < mkRat 3 5 →
       cdcStep et [] bs bt i d = Except.ok (some
         { sequence_number := bs + i, operation := "INSERT",
           change_timestamp := bt + (i : Int),
           payload := fresh_insert_record et d }, [fresh_insert_record et d])) ∧
    (∀ (et : EntityType) (bs : Nat) (bt : Int) (i : Nat) (d : StepDraw),
       ¬ d.roll < mkRat 9 10 →
       cdcStep et [] bs bt i d = Except.ok (none, [])) := by
  refine ⟨?_, ?_, ?_⟩
  · intro et pop b c now rand
    obtain ⟨evs, popF, h⟩ := cdcLoop_ok et _ _ rand c 0 pop
    exact ⟨(evs, popF), h⟩
  · intro et bs bt i d hr
    have h1 : ¬ (d.roll < mkRat 3 5 ∧ ¬ ([] : List (RecOf et)) = []) := by simp
    have h2 : d.roll < mkRat 9 10 := lt_trans hr (by decide)
    unfold cdcStep
    rw [if_neg h1, if_pos h2]
    rfl
  · intro et bs bt i d hr
    have h1 : ¬ (d.roll < mkRat 3 5 ∧ ¬ ([] : List (RecOf et)) = []) := by simp
    unfold cdcStep
    rw [if_neg h1, if_neg hr, if_neg (not_not_intro rfl)]

theorem c2_empty_population_safe_witness :
    (generate_cdc_batch EntityType.customers [] 0 1 0 (fun _ => smp_step 0)).isOk
      = true ∧
    cdcStep EntityType.customers [] 0 0 0 (smp_step 0) = Except.ok (some
      { sequence_number := 0, operation := "INSERT", change_timestamp := 0,
        payload := fresh_insert_record EntityType.customers (smp_step 0) },
      [fresh_insert_record EntityType.customers (smp_step 0)]) ∧
    cdcStep EntityType.customers [] 0 0 0 (smp_step 1) = Except.ok (none, []) := by
  refine ⟨?_, ?_, ?_⟩
  · obtain ⟨res, h⟩ := c2_empty_population_safe.1 EntityType.customers [] 0 1 0
      (fun _ => smp_step 0)
    rw [h]; rfl
  · exact c2_empty_population_safe.2.1 EntityType.customers 0 0 0 (smp_step 0) (by decide)
  · exact c2_empty_population_safe.2.2 EntityType.customers 0 0 0 (smp_step 1) (by decide)

/-- Claim C3: the event list of generate_cdc_batch has length at most
changes_count; the population never shrinks; and when the population is
non-empty at the start of the call the length is exactly changes_count. -/
theorem c3_output_length :
    ∀ (et : EntityType) (pop : List (RecOf et)) (b c : Nat) (now : Int)
      (rand : Nat → StepDraw) (evs : List (ChangeEvent et))
      (popF : List (RecOf et)),
    generate_cdc_batch et pop b c now rand = Except.ok (evs, popF) →
    evs.length ≤ c ∧ pop.length ≤ popF.length ∧ (pop ≠ [] → evs.length = c) := by
  intro et pop b c now rand evs popF hok
  obtain ⟨_, _, hPop, hLen, hNE⟩ := cdcLoop_spec et _ _ rand c 0 pop evs popF hok
  refine ⟨hLen, ?_, hNE⟩
  rw [hPop]
  simp

theorem c3_output_length_witness :
    (1 : Nat) ≤ 1 ∧ (1 : Nat) ≤ 1 ∧ (1 : Nat) = 1 := by
  have hok : generate_cdc_batch EntityType.customers [smp_customer] 0 1 0
      (fun _ => smp_step 0) = Except.ok
      ([{ sequence_number := 0, operation := "UPDATE", change_timestamp := 0,
          payload := { customer_id := some "c", customer_unique_id := "u",
                       customer_zip_code_prefix := some 22222,
                       customer_city := "Sao Paulo", customer_state := "SP" } }],
        [smp_customer]) := by rfl
  obtain ⟨h1, h2, h3⟩ := c3_output_length EntityType.customers [smp_customer] 0 1 0
    (fun _ => smp_step 0) _ _ hok
  exact ⟨h1, h2, h3 (by decide)⟩

/-- Claim C5: the only modification generate_cdc_batch makes to the
population is appending the freshly inserted record of each INSERT event
in order: the final population is the initial population followed by the
payloads of the INSERT events, so no element is removed or mutated and the
final length is the initial length plus the number of INSERT events. -/
theorem c5_population_append_only :
    ∀ (et : EntityType) (pop : List (RecOf et)) (b c : Nat) (now : Int)
      (rand : Nat → StepDraw) (evs : List (ChangeEvent et))
      (popF : List (RecOf et)),
    generate_cdc_batch et pop b c now rand = Except.ok (evs, popF) →
    popF = pop ++ List.map (fun e => ChangeEvent.payload e)
      (List.filter (fun e => ChangeEvent.operation e == "INSERT") evs) ∧
    popF.length = pop.length +
      (List.filter (fun e => ChangeEvent.operation e == "INSERT") evs).length := by
  intro et pop b c now rand evs popF hok
  obtain ⟨_, _, hPop, _, _⟩ := cdcLoop_spec et _ _ rand c 0 pop evs popF hok
  refine ⟨hPop, ?_⟩
  rw [hPop]
  simp

theorem c5_population_append_only_witness : (1 : Nat) = 0 + 1 := by
  have hok : generate_cdc_batch EntityType.customers [] 0 1 0
      (fun _ => smp_step 0) = Except.ok
      ([{ sequence_number := 0, operation := "INSERT", change_timestamp := 0,
          payload := fresh_insert_record EntityType.customers (smp_step 0) }],
        [fresh_insert_record EntityType.customers (smp_step 0)]) := by rfl
  obtain ⟨_, hlen⟩ := c5_population_append_only EntityType.customers [] 0 1 0
    (fun _ => smp_step 0) _ _ hok
  exact hlen

/-- Claim C8: within one call of generate_cdc_batch, every event at change
index i carries change_timestamp equal to the batch base time (the
wall-clock reading plus batch_num hours) plus i seconds, and its sequence
number is the batch base plus the same i, so of any two emitted events the
one with the larger sequence number has the strictly later timestamp. -/
theorem c8_timestamp_order :
    ∀ (et : EntityType) (pop : List (RecOf et)) (b c : Nat) (now : Int)
      (rand : Nat → StepDraw) (evs : List (ChangeEvent et))
      (popF : List (RecOf et)),
    generate_cdc_batch et pop b c now rand = Except.ok (evs, popF) →
    (∀ e ∈ evs, ∃ i, i < c ∧
       ChangeEvent.sequence_number e = b * 10000 + i ∧
       ChangeEvent.change_timestamp e = (now + 3600 * (b : Int)) + (i : Int)) ∧
    (∀ e1 ∈ evs, ∀ e2 ∈ evs,
       ChangeEvent.sequence_number e1 < ChangeEvent.sequence_number e2 →
       ChangeEvent.change_timestamp e1 < ChangeEvent.change_timestamp e2) := by
  intro et pop b c now rand evs popF hok
  obtain ⟨hEv, _, _, _, _⟩ := cdcLoop_spec et _ _ rand c 0 pop evs popF hok
  constructor
  · intro e he
    obtain ⟨j, _, hj2, hseq, htime, _⟩ := hEv e he
    exact ⟨j, by omega, hseq, htime⟩
  · intro e1 he1 e2 he2 hlt
    obtain ⟨j1, _, _, hseq1, htime1, _⟩ := hEv e1 he1
    obtain ⟨j2, _, _, hseq2, htime2, _⟩ := hEv e2 he2
    rw [hseq1, hseq2] at hlt
    rw [htime1, htime2]
    omega

theorem c8_timestamp_order_witness : (0 : Int) < 1 := by
  have hok : generate_cdc_batch EntityType.customers [smp_customer] 0 2 0
      (fun _ => smp_step 0) = Except.ok
      ([{ sequence_number := 0, operation := "UPDATE", change_timestamp := 0,
          payload := { customer_id := some "c", customer_unique_id := "u",
                       customer_zip_code_prefix := some 22222,
                       customer_city := "Sao Paulo", customer_state := "SP" } },
        { sequence_number := 1, operation := "UPDATE", change_timestamp := 1,
          payload := { customer_id := some "c", customer_unique_id := "u",
                       customer_zip_code_prefix := some 22222,
                       customer_city := "Sao Paulo", customer_state := "SP" } }],
        [smp_customer]) := by rfl
  exact (c8_timestamp_order EntityType.customers [smp_customer] 0 2 0
    (fun _ => smp_step 0) _ _ hok).2 _ (List.mem_cons_self _ _)
    _ (List.mem_cons_of_mem _ (List.mem_singleton.mpr rfl)) (by decide)

/-- Claim C10: generate_cdc_batch applies no bad-record injection to the
records it synthesizes: every INSERT event payload is freshly generated and
well-formed (identifiers are 32-character lowercase hexadecimal strings,
customer and seller zip prefixes lie in [10000, 99999], and product
categories come from the fixed list), whatever corrupted records the
population may already contain; only UPDATE and DELETE payloads can carry
corruption inherited from population records. -/
theorem c10_insert_payload_wellformed :
    ∀ (et : EntityType) (pop : List (RecOf et)) (b c : Nat) (now : Int)
      (rand : Nat → StepDraw) (evs : List (ChangeEvent et))
      (popF : List (RecOf et)),
    generate_cdc_batch et pop b c now rand = Except.ok (evs, popF) →
    ∀ e ∈ evs, ChangeEvent.operation e = "INSERT" →
    insert_wellformed et (ChangeEvent.payload e) := by
  intro et pop b c now rand evs popF hok e he hop
  obtain ⟨hEv, _, _, _, _⟩ := cdcLoop_spec et _ _ rand c 0 pop evs popF hok
  obtain ⟨j, _, _, _, _, _, hins⟩ := hEv e he
  obtain ⟨d, hd⟩ := hins hop
  rw [hd]
  exact insert_wellformed_fresh et d

theorem c10_insert_payload_wellformed_witness :
    insert_wellformed EntityType.customers
      (fresh_insert_record EntityType.customers (smp_step 0)) := by
  have hok : generate_cdc_batch EntityType.customers [] 0 1 0
      (fun _ => smp_step 0) = Except.ok
      ([{ sequence_number := 0, operation := "INSERT", change_timestamp := 0,
          payload := fresh_insert_record EntityType.customers (smp_step 0) }],
        [fresh_insert_record EntityType.customers (smp_step 0)]) := by rfl
  exact c10_insert_payload_wellformed EntityType.customers [] 0 1 0
    (fun _ => smp_step 0) _ _ hok _ (List.mem_singleton.mpr rfl) rfl

/-- Claim C4 counterexample: in a seller UPDATE event the zip prefix is NOT
mutated, refuting the claim that for sellers the city, state and zip prefix
are all changed.  With population [smp_seller] (zip prefix 11111) and a
location draw whose fresh zip prefix is 22222, the emitted UPDATE payload
still carries zip prefix 11111: the source draws zip_prefix alongside city
and state but never assigns it to the seller record (lines 422-425). -/
theorem c4_seller_zip_cex :
    generate_cdc_batch EntityType.sellers [smp_seller] 0 1 0 (fun _ => smp_step 0) =
      Except.ok ([{ sequence_number := 0, operation := "UPDATE", change_timestamp := 0,
                    payload := { seller_id := some "s", seller_zip_code_prefix := 11111,
                                 seller_city := "Sao Paulo", seller_state := "SP" } }],
                 [smp_seller]) ∧
    (random_brazilian_location ( StepDraw.loc (smp_step 0))).2.2 = 22222 ∧
    Seller.seller_zip_code_prefix smp_seller = 11111 := by
  exact ⟨by rfl, by rfl, by rfl⟩

/-- Claim C4 (amended): every UPDATE event payload of generate_cdc_batch is
the update mutation apply_update_changes of a record of the population, and
that mutation touches exactly the entity-specific fields, leaving the
primary key and every other field equal to the chosen record: for customers
city, state and zip prefix are set to the fresh location draw; for products
category and weight are set to fresh draws; for sellers only city and state
are set — the seller zip prefix is left unchanged, unlike the original
wording of the claim. -/
theorem c4_update_frame_amended :
    (∀ (et : EntityType) (pop : List (RecOf et)) (b c : Nat) (now : Int)
       (rand : Nat → StepDraw) (evs : List (ChangeEvent et))
       (popF : List (RecOf et)),
       generate_cdc_batch et pop b c now rand = Except.ok (evs, popF) →
       ∀ e ∈ evs, ChangeEvent.operation e = "UPDATE" →
         ∃ r, r ∈ popF ∧ ∃ d : StepDraw,
           ChangeEvent.payload e = apply_update_changes et d r) ∧
    (∀ (d : StepDraw) (r : Customer),
       Customer.customer_id (apply_update_changes EntityType.customers d r) =
         Customer.customer_id r ∧
       Customer.customer_unique_id (apply_update_changes EntityType.customers d r) =
         Customer.customer_unique_id r ∧
       Customer.customer_city (apply_update_changes EntityType.customers d r) =
         (random_brazilian_location ( StepDraw.loc d)).2.1 ∧
       Customer.customer_state (apply_update_changes EntityType.customers d r) =
         (random_brazilian_location ( StepDraw.loc d)).1 ∧
       Customer.customer_zip_code_prefix (apply_update_changes EntityType.customers d r) =
         some (random_brazilian_location ( StepDraw.loc d)).2.2) ∧
    (∀ (d : StepDraw) (p : Product),
       Product.product_id (apply_update_changes EntityType.products d p) =
         Product.product_id p ∧
       Product.product_name_lenght (apply_update_changes EntityType.products d p) =
         Product.product_name_lenght p ∧
       Product.product_description_lenght (apply_update_changes EntityType.products d p) =
         Product.product_description_lenght p ∧
       Product.product_photos_qty (apply_update_changes EntityType.products d p) =
         Product.product_photos_qty p ∧
       Product.product_length_cm (apply_update_changes EntityType.products d p) =
         Product.product_length_cm p ∧
       Product.product_height_cm (apply_update_changes EntityType.products d p) =
         Product.product_height_cm p ∧
       Product.product_width_cm (apply_update_changes EntityType.products d p) =
         Product.product_width_cm p ∧
       Product.product_category_name (apply_update_changes EntityType.products d p) ∈
         PRODUCT_CATEGORIES ∧
       Product.product_weight_g (apply_update_changes EntityType.products d p) =
         ((randint 100 50000 ( StepDraw.weightE d) : Nat) : Int)) ∧
    (∀ (d : StepDraw) (s : Seller),
       Seller.seller_id (apply_update_changes EntityType.sellers d s) =
         Seller.seller_id s ∧
       Seller.seller_zip_code_prefix (apply_update_changes EntityType.sellers d s) =
         Seller.seller_zip_code_prefix s ∧
       Seller.seller_city (apply_update_changes EntityType.sellers d s) =
         (random_brazilian_location ( StepDraw.loc d)).2.1 ∧
       Seller.seller_state (apply_update_changes EntityType.sellers d s) =
         (random_brazilian_location ( StepDraw.loc d)).1) := by
  refine ⟨?_, ?_, ?_, ?_⟩
  · intro et pop b c now rand evs popF hok e he hop
    obtain ⟨hEv, _, _, _, _⟩ := cdcLoop_spec et _ _ rand c 0 pop evs popF hok
    obtain ⟨j, _, _, _, _, hupd, _⟩ := hEv e he
    exact hupd hop
  · exact fun d r => ⟨rfl, rfl, rfl, rfl, rfl⟩
  · exact fun d p =>
      ⟨rfl, rfl, rfl, rfl, rfl, rfl, rfl, choice_of_mem _ _ (by decide), rfl⟩
  · exact fun d s => ⟨rfl, rfl, rfl, rfl⟩

theorem c4_update_frame_witness :
    Seller.seller_zip_code_prefix
      (@ChangeEvent.payload EntityType.sellers
        { sequence_number := 0, operation := "UPDATE", change_timestamp := 0,
          payload := { seller_id := some "s", seller_zip_code_prefix := 11111,
                       seller_city := "Sao Paulo", seller_state := "SP" } }) = 11111 := by
  have hok : generate_cdc_batch EntityType.sellers [smp_seller] 0 1 0
      (fun _ => smp_step 0) = Except.ok
      ([{ sequence_number := 0, operation := "UPDATE", change_timestamp := 0,
          payload := { seller_id := some "s", seller_zip_code_prefix := 11111,
                       seller_city := "Sao Paulo", seller_state := "SP" } }],
        [smp_seller]) := by rfl
  obtain ⟨r, hrmem, d, hpd⟩ := c4_update_frame_amended.1 EntityType.sellers
    [smp_seller] 0 1 0 (fun _ => smp_step 0) _ _ hok _
    (List.mem_singleton.mpr rfl) rfl
  have hr : r = smp_seller := List.mem_singleton.mp hrmem
  subst hr
  rw [hpd]
  exact (c4_update_frame_amended.2.2.2 d smp_seller).2.1.trans rfl

/-- Claim C6 counterexample: called with the unknown entity kind
"geolocation" and a corrupting roll (0, below the rate 1), introduce_bad_data
returns the record unchanged instead of failing fast; the embedding is
total with Except nowhere needed because the source function has no raise
path at all — an unknown kind simply falls through the elif chain to the
final return. -/
theorem c6_unknown_kind_cex :
    introduce_bad_data (Rec.customer smp_customer) "geolocation" (smp_bad 0 0) 1 =
      Rec.customer smp_customer := by
  rfl

/-- Claim C6 (amended): for an entity kind outside the seven known kinds,
introduce_bad_data never fails; it silently returns the record unchanged,
whatever the roll and rate. -/
theorem c6_unknown_kind_amended :
    ∀ (r : Rec) (s : String) (d : BadDraw) (rate : ℚ),
    ¬ s ∈ ["customer", "product", "seller", "order", "order_item",
           "order_payment", "order_review"] →
    introduce_bad_data r s d rate = r := by
  intro r s d rate hs
  simp only [List.mem_cons, List.not_mem_nil, or_false, not_or] at hs
  obtain ⟨h1, h2, h3, h4, h5, h6, h7⟩ := hs
  unfold introduce_bad_data
  by_cases hroll : rate ≤ d.roll
  · rw [if_pos hroll]
  · rw [if_neg hroll, if_neg h1, if_neg h2, if_neg h3, if_neg h4, if_neg h5,
      if_neg h6, if_neg h7]

theorem c6_unknown_kind_witness :
    introduce_bad_data (Rec.customer smp_customer) "widget" (smp_bad 0 0) 1 =
      Rec.customer smp_customer := by
  exact c6_unknown_kind_amended (Rec.customer smp_customer) "widget"
    (smp_bad 0 0) 1 (by decide)

/-- Claim C9: for a record of any known entity kind, introduce_bad_data
with a clean roll — in particular always at rate 0 — returns the record
with no field changed, and whenever it corrupts the record (roll below the
rate) it selects exactly one violation kind and applies exactly that one
single-field mutation, never two violations in the same pass. -/
theorem c9_single_violation :
    ∀ (r : Rec) (d : BadDraw) (rate : ℚ),
    (rate ≤ d.roll → introduce_bad_data r (kindOf r) d rate = r) ∧
    (0 ≤ d.roll → introduce_bad_data r (kindOf r) d 0 = r) ∧
    (d.roll < rate → OneViolation r (introduce_bad_data r (kindOf r) d rate)) := by
  intro r d rate
  refine ⟨?_, ?_, ?_⟩
  · intro h
    unfold introduce_bad_data
    rw [if_pos h]
  · intro h
    unfold introduce_bad_data
    rw [if_pos h]
  · intro h
    have hn : ¬ rate ≤ d.roll := not_le.mpr h
    rcases r with c | p | s | o | it | pay | rv
    · show OneViolation _ (introduce_bad_data (Rec.customer c) "customer" d rate)
      unfold introduce_bad_data
      rw [if_neg hn, if_pos rfl]
      have h3 : d.violIdx % 3 = 0 ∨ d.violIdx % 3 = 1 ∨ d.violIdx % 3 = 2 := by omega
      rcases h3 with h3 | h3 | h3
      · simp only [h3]
        exact Or.inl rfl
      · simp only [h3]
        exact Or.inr (Or.inl rfl)
      · simp only [h3]
        exact Or.inr (Or.inr rfl)
    · show OneViolation _ (introduce_bad_data (Rec.product p) "product" d rate)
      unfold introduce_bad_data
      rw [if_neg hn, if_neg (by decide), if_pos rfl]
      have h3 : d.violIdx % 3 = 0 ∨ d.violIdx % 3 = 1 ∨ d.violIdx % 3 = 2 := by omega
      have hw : -((randint 1 1000 ( BadDraw.amtN d) : Nat) : Int) < 0 := by
        have := le_randint 1 1000 ( BadDraw.amtN d)
        omega
      have hv : -((randint 1 50 ( BadDraw.amtN d) : Nat) : Int) < 0 := by
        have := le_randint 1 50 ( BadDraw.amtN d)
        omega
      rcases h3 with h3 | h3 | h3
      · simp only [h3]
        exact Or.inl rfl
      · simp only [h3]
        exact Or.inr (Or.inl ⟨_, hw, rfl⟩)
      · simp only [h3]
        have hd3 : d.dimIdx % 3 = 0 ∨ d.dimIdx % 3 = 1 ∨ d.dimIdx % 3 = 2 := by omega
        rcases hd3 with hd3 | hd3 | hd3
        · simp only [hd3]
          exact Or.inr (Or.inr ⟨_, hv, Or.inl rfl⟩)
        · simp only [hd3]
          exact Or.inr (Or.inr ⟨_, hv, Or.inr (Or.inl rfl)⟩)
        · simp only [hd3]
          exact Or.inr (Or.inr ⟨_, hv, Or.inr (Or.inr rfl)⟩)
    · show OneViolation _ (introduce_bad_data (Rec.seller s) "seller" d rate)
      unfold introduce_bad_data
      rw [if_neg hn, if_neg (by decide), if_neg (by decide), if_pos rfl]
      have h2 : d.violIdx % 2 = 0 ∨ d.violIdx % 2 = 1 := by omega
      rcases h2 with h2 | h2
      · simp only [h2]
        exact Or.inl rfl
      · simp only [h2]
        exact Or.inr rfl
    · show OneViolation _ (introduce_bad_data (Rec.order o) "order" d rate)
      unfold introduce_bad_data
      rw [if_neg hn, if_neg (by decide), if_neg (by decide), if_neg (by decide),
        if_pos rfl]
      have h3 : d.violIdx % 3 = 0 ∨ d.violIdx % 3 = 1 ∨ d.violIdx % 3 = 2 := by omega
      rcases h3 with h3 | h3 | h3
      · simp only [h3]
        exact Or.inl rfl
      · simp only [h3]
        exact Or.inr (Or.inl rfl)
      · simp only [h3]
        exact Or.inr (Or.inr rfl)
    · show OneViolation _ (introduce_bad_data (Rec.orderItem it) "order_item" d rate)
      unfold introduce_bad_data
      rw [if_neg hn, if_neg (by decide), if_neg (by decide), if_neg (by decide),
        if_neg (by decide), if_pos rfl]
      have h2 : d.violIdx % 2 = 0 ∨ d.violIdx % 2 = 1 := by omega
      rcases h2 with h2 | h2
      · simp only [h2]
        exact Or.inl ⟨_, rfl⟩
      · simp only [h2]
        exact Or.inr ⟨_, rfl⟩
    · show OneViolation _ (introduce_bad_data (Rec.orderPayment pay) "order_payment" d rate)
      unfold introduce_bad_data
      rw [if_neg hn, if_neg (by decide), if_neg (by decide), if_neg (by decide),
        if_neg (by decide), if_neg (by decide), if_pos rfl]
      have h2 : d.violIdx % 2 = 0 ∨ d.violIdx % 2 = 1 := by omega
      rcases h2 with h2 | h2
      · simp only [h2]
        exact Or.inl rfl
      · simp only [h2]
        exact Or.inr ⟨_, rfl⟩
    · show OneViolation _ (introduce_bad_data (Rec.orderReview rv) "order_review" d rate)
      unfold introduce_bad_data
      rw [if_neg hn, if_neg (by decide), if_neg (by decide), if_neg (by decide),
        if_neg (by decide), if_neg (by decide), if_neg (by decide), if_pos rfl]
      have h2 : d.violIdx % 2 = 0 ∨ d.violIdx % 2 = 1 := by omega
      have hs : (6 : Int) ≤ ((randint 6 10 ( BadDraw.amtN d) : Nat) : Int) ∧
          ((randint 6 10 ( BadDraw.amtN d) : Nat) : Int) ≤ 10 := by
        have h1 := le_randint 6 10 ( BadDraw.amtN d)
        have h2 := randint_le 6 10 ( BadDraw.amtN d) (by omega)
        omega
      rcases h2 with h2 | h2
      · simp only [h2]
        exact Or.inl rfl
      · simp only [h2]
        exact Or.inr ⟨_, hs.1, hs.2, rfl⟩

theorem c9_single_violation_witness :
    introduce_bad_data (Rec.customer smp_customer)
      (kindOf (Rec.customer smp_customer)) (smp_bad 1 0) 0 =
      Rec.customer smp_customer ∧
    OneViolation (Rec.customer smp_customer)
      (introduce_bad_data (Rec.customer smp_customer)
        (kindOf (Rec.customer smp_customer)) (smp_bad 0 0) 1) := by
  exact ⟨(c9_single_violation (Rec.customer smp_customer) (smp_bad 1 0) 0).2.1
      (by decide),
    (c9_single_violation (Rec.customer smp_customer) (smp_bad 0 0) 1).2.2
      (by decide)⟩

theorem randChoice_mem (l : List α) (idx : Nat) (x : α)
    (h : randChoice l idx = Except.ok x) : x ∈ l := by
  cases l with
  | nil => simp [randChoice] at h
  | cons a as =>
    simp only [randChoice, Except.ok.injEq] at h
    rw [← h]
    exact List.get_mem _ _ _

theorem ordersLoop_spec (cids : List String) (ab : Bool) (draws : Nat → OrderDraw) :
    ∀ (n j : Nat) (orders : List Order),
    ordersLoop cids ab draws j n = Except.ok orders →
    ∀ o ∈ orders, ∃ (k : Nat) (cid status : String) (base : Order),
      status ∈ ORDER_STATUSES ∧
      base = make_order (generate_uuid ((draws k).oidE)) cid status
        (random_timestamp START_DATE END_DATE ((draws k).dayE) ((draws k).secE))
        ((draws k).appE) ((draws k).carE) ((draws k).cusE) ((draws k).estE) ∧
      o = (if ab then
             as_order (introduce_bad_data (Rec.order base) "order"
               ((draws k).bad) BAD_DATA_RATE) base
           else base) := by
  intro n
  induction n with
  | zero =>
    intro j orders h
    simp only [ordersLoop, Except.ok.injEq] at h
    subst h
    intro o ho
    exact absurd ho (List.not_mem_nil o)
  | succ n ih =>
    intro j orders h
    cases hc : randChoice cids ((draws j).custIdx) with
    | error msg => simp [ordersLoop, hc] at h
    | ok cid =>
      cases hs : randChoice ORDER_STATUSES ((draws j).statusIdx) with
      | error msg => simp [ordersLoop, hc, hs] at h
      | ok status =>
        cases hrec : ordersLoop cids ab draws (j + 1) n with
        | error msg => simp [ordersLoop, hc, hs, hrec] at h
        | ok rest =>
          simp only [ordersLoop, hc, hs, hrec, Except.ok.injEq] at h
          subst h
          intro o ho
          rcases List.mem_cons.mp ho with rfl | ho
          · exact ⟨j, cid, status, _, randChoice_mem _ _ _ hs, rfl, rfl⟩
          · exact ih (j + 1) rest hrec o ho

theorem make_order_lifecycle (oid cid status : String) (pt : Int)
    (aE cE dE eE : Nat) :
    ( Order.order_approved_at (make_order oid cid status pt aE cE dE eE) ≠ none →
        status ≠ "created") ∧
    ( Order.order_delivered_carrier_date (make_order oid cid status pt aE cE dE eE) ≠ none →
        status = "shipped" ∨ status = "delivered") ∧
    ( Order.order_delivered_customer_date (make_order oid cid status pt aE cE dE eE) ≠ none →
        status = "delivered") := by
  refine ⟨?_, ?_, ?_⟩
  · intro h hs
    apply h
    show (if status ≠ "created"
          then some (pt + 3600 * ((randint 1 24 aE : Nat) : Int)) else none) = none
    rw [if_neg (not_not_intro hs)]
  · intro h
    by_contra hs
    apply h
    show (if status = "shipped" ∨ status = "delivered"
          then some (pt + 86400 * ((randint 1 5 cE : Nat) : Int)) else none) = none
    rw [if_neg hs]
  · intro h
    by_contra hs
    apply h
    show (if status = "delivered"
          then some (pt + 86400 * ((randint 5 30 dE : Nat) : Int)) else none) = none
    rw [if_neg hs]

theorem introduce_bad_data_order_cases (o : Order) (d : BadDraw) (rate : ℚ) :
    introduce_bad_data (Rec.order o) "order" d rate = Rec.order o ∨
    introduce_bad_data (Rec.order o) "order" d rate =
      Rec.order { o with order_id := none } ∨
    (d.roll < rate ∧ ( BadDraw.violIdx d) % 3 = 1 ∧
      introduce_bad_data (Rec.order o) "order" d rate =
        Rec.order { o with order_status := "INVALID_STATUS_XYZ" }) ∨
    introduce_bad_data (Rec.order o) "order" d rate =
      Rec.order { o with order_purchase_timestamp := none } := by
  by_cases hroll : rate ≤ d.roll
  · left
    unfold introduce_bad_data
    rw [if_pos hroll]
  · have heq : introduce_bad_data (Rec.order o) "order" d rate =
        (match d.violIdx % 3 with
         | 0 => Rec.order { o with order_id := none }
         | 1 => Rec.order { o with order_status := "INVALID_STATUS_XYZ" }
         | _ => Rec.order { o with order_purchase_timestamp := none }) := by
      unfold introduce_bad_data
      rw [if_neg hroll, if_neg (by decide), if_neg (by decide), if_neg (by decide),
        if_pos rfl]
    have h3 : d.violIdx % 3 = 0 ∨ d.violIdx % 3 = 1 ∨ d.violIdx % 3 = 2 := by omega
    rcases h3 with h3 | h3 | h3
    · right; left
      rw [heq]
      simp only [h3]
    · right; right; left
      refine ⟨not_le.mp hroll, h3, ?_⟩
      rw [heq]
      simp only [h3]
    · right; right; right
      rw [heq]
      simp only [h3]

/-- Claim C7 counterexample: after bad-record injection the lifecycle
consistency fails.  With one order drawn as "shipped" and an injection draw
that corrupts (roll 0 below the 0.02 rate) and picks the invalid_status
violation, generate_orders emits an order whose order_status is
"INVALID_STATUS_XYZ" — not in the shipped/delivered set — while
order_delivered_carrier_date is still present. -/
theorem c7_lifecycle_cex :
    generate_orders 1 ["c0"] true (fun _ => smp_order_draw 4 (smp_bad 0 1)) =
      Except.ok [{ order_id := some "00000000000000000000000000000000",
                   customer_id := "c0",
                   order_status := "INVALID_STATUS_XYZ",
                   order_purchase_timestamp := some 1483228800,
                   order_approved_at := some 1483232400,
                   order_delivered_carrier_date := some 1483315200,
                   order_delivered_customer_date := none,
                   order_estimated_delivery_date := 1483833600 }] ∧
    ¬ ("INVALID_STATUS_XYZ" = "shipped" ∨ "INVALID_STATUS_XYZ" = "delivered") := by
  exact ⟨by rfl, by decide⟩

/-- Claim C7 (amended): every order produced by generate_orders satisfies
the lifecycle consistency — order_approved_at present only when
order_status is not "created", order_delivered_carrier_date present only
when the status is "shipped" or "delivered", order_delivered_customer_date
present only when the status is "delivered" — provided bad-record injection
never picks the invalid_status violation for it (in particular always
before injection, or when the injection roll keeps the record clean); an
invalid_status injection can leave delivery dates present alongside the
corrupted status, as the counterexample shows. -/
theorem c7_lifecycle_amended :
    ∀ (count : Nat) (cids : List String) (ab : Bool) (draws : Nat → OrderDraw)
      (orders : List Order),
    (∀ k, BAD_DATA_RATE ≤ (((draws k).bad).roll) ∨
      (((draws k).bad).violIdx) % 3 ≠ 1) →
    generate_orders count cids ab draws = Except.ok orders →
    ∀ o ∈ orders,
      ( Order.order_approved_at o ≠ none → Order.order_status o ≠ "created") ∧
      ( Order.order_delivered_carrier_date o ≠ none →
          Order.order_status o = "shipped" ∨ Order.order_status o = "delivered") ∧
      ( Order.order_delivered_customer_date o ≠ none →
          Order.order_status o = "delivered") := by
  intro count cids ab draws orders hdraws hok o ho
  obtain ⟨k, cid, status, base, hstat, hbase, hrep⟩ :=
    ordersLoop_spec cids ab draws count 0 orders hok o ho
  subst hrep
  cases ab with
  | false =>
    rw [if_neg (by decide)]
    subst hbase
    exact make_order_lifecycle _ _ _ _ _ _ _ _
  | true =>
    rw [if_pos rfl]
    rcases introduce_bad_data_order_cases base ((draws k).bad) BAD_DATA_RATE with
      hcase | hcase | ⟨hroll, hviol, hcase⟩ | hcase
    · rw [hcase]
      subst hbase
      exact make_order_lifecycle (generate_uuid ((draws k).oidE)) cid status
        (random_timestamp START_DATE END_DATE ((draws k).dayE) ((draws k).secE))
        ((draws k).appE) ((draws k).carE) ((draws k).cusE) ((draws k).estE)
    · rw [hcase]
      subst hbase
      exact make_order_lifecycle (generate_uuid ((draws k).oidE)) cid status
        (random_timestamp START_DATE END_DATE ((draws k).dayE) ((draws k).secE))
        ((draws k).appE) ((draws k).carE) ((draws k).cusE) ((draws k).estE)
    · rcases hdraws k with hclean | hnv
      · exact absurd hclean (not_le.mpr hroll)
      · exact absurd hviol hnv
    · rw [hcase]
      subst hbase
      exact make_order_lifecycle (generate_uuid ((draws k).oidE)) cid status
        (random_timestamp START_DATE END_DATE ((draws k).dayE) ((draws k).secE))
        ((draws k).appE) ((draws k).carE) ((draws k).cusE) ((draws k).estE)

theorem c7_lifecycle_witness :
    ( Order.order_approved_at
        { order_id := some "00000000000000000000000000000000",
          customer_id := "c0",
          order_status := "delivered",
          order_purchase_timestamp := some 1483228800,
          order_approved_at := some 1483232400,
          order_delivered_carrier_date := some 1483315200,
          order_delivered_customer_date := some 1483660800,
          order_estimated_delivery_date := 1483833600 } ≠ none →
      Order.order_status
        { order_id := some "00000000000000000000000000000000",
          customer_id := "c0",
          order_status := "delivered",
          order_purchase_timestamp := some 1483228800,
          order_approved_at := some 1483232400,
          order_delivered_carrier_date := some 1483315200,
          order_delivered_customer_date := some 1483660800,
          order_estimated_delivery_date := 1483833600 } ≠ "created") ∧
    ( Order.order_delivered_carrier_date
        { order_id := some "00000000000000000000000000000000",
          customer_id := "c0",
          order_status := "delivered",
          order_purchase_timestamp := some 1483228800,
          order_approved_at := some 1483232400,
          order_delivered_carrier_date := some 1483315200,
          order_delivered_customer_date := some 1483660800,
          order_estimated_delivery_date := 1483833600 } ≠ none →
      Order.order_status
        { order_id := some "00000000000000000000000000000000",
          customer_id := "c0",
          order_status := "delivered",
          order_purchase_timestamp := some 1483228800,
          order_approved_at := some 1483232400,
          order_delivered_carrier_date := some 1483315200,
          order_delivered_customer_date := some 1483660800,
          order_estimated_delivery_date := 1483833600 } = "shipped" ∨
      Order.order_status
        { order_id := some "00000000000000000000000000000000",
          customer_id := "c0",
          order_status := "delivered",
          order_purchase_timestamp := some 1483228800,
          order_approved_at := some 1483232400,
          order_delivered_carrier_date := some 1483315200,
          order_delivered_customer_date := some 1483660800,
          order_estimated_delivery_date := 1483833600 } = "delivered") := by
  have hok : generate_orders 1 ["c0"] true (fun _ => smp_order_draw 5 (smp_bad 1 0)) =
      Except.ok [{ order_id := some "00000000000000000000000000000000",
                   customer_id := "c0",
                   order_status := "delivered",
                   order_purchase_timestamp := some 1483228800,
                   order_approved_at := some 1483232400,
                   order_delivered_carrier_date := some 1483315200,
                   order_delivered_customer_date := some 1483660800,
                   order_estimated_delivery_date := 1483833600 }] := by rfl
  have h := c7_lifecycle_amended 1 ["c0"] true (fun _ => smp_order_draw 5 (smp_bad 1 0))
    _ (fun k => Or.inl (show BAD_DATA_RATE ≤ (((smp_order_draw 5 (smp_bad 1 0)).bad).roll)
      from by decide)) hok _ (List.mem_singleton.mpr rfl)
  exact ⟨h.1, h.2.1⟩
